import Mathlib

/-!
# Verification of the weekly swing-trading backtest (phils_swing_strategy.py)

Shallow embedding of the core pipeline of `src/phils_swing_strategy.py`:
indicator annotation (the shift/UpSlope columns, lines 131-132), the per-week
trade-simulation loop (lines 153-232) and the result aggregation
(lines 239-257).  Prices are modelled as rationals, dates as integers
(days since 1970-01-01, which was a Thursday, so the Python weekday —
Monday = 0 — is `(d + 3) % 7`).  The per-bar random
slippage draws (`random.uniform`, lines 168 and 214) are modelled as an
explicit stream of rational values consumed one per bar, plus one value for
the forced end-of-week close.
-/

/- Batteries marks the `Rat` arithmetic operations `@[irreducible]`, which
blocks `decide`/`rfl` evaluation of the concrete scenarios below; restore
the ordinary reducibility of these computable definitions. -/
set_option allowUnsafeReducibility true in
attribute [semireducible] Rat.mul Rat.inv Rat.div Rat.add Rat.sub Rat.neg Rat.blt

/-- Python `datetime.weekday`: Monday = 0 .. Sunday = 6, for a date given
as days since 1970-01-01 (a Thursday). -/
def weekday (d : ℤ) : ℤ := (d + 3) % 7

/-- English day name, as produced by `strftime` with the day-name format. -/
def dayName (w : ℤ) : String :=
  if w = 0 then "Monday"
  else if w = 1 then "Tuesday"
  else if w = 2 then "Wednesday"
  else if w = 3 then "Thursday"
  else if w = 4 then "Friday"
  else if w = 5 then "Saturday"
  else "Sunday"

/-- One daily bar as delivered by the data provider, together with the
indicator values the external indicator library attaches to it
(lines 128-130).  `none` models a NaN (warm-up) indicator value. -/
structure RawBar where
  date : ℤ
  openPrice : ℚ
  high : ℚ
  low : ℚ
  close : ℚ
  sma : Option ℚ
  hma : Option ℚ
  rsi : Option ℚ
deriving DecidableEq, Repr

/-- A bar after the two derived columns of lines 131-132 are added:
`Previous_RSI` (the RSI shifted by `slope_lookback`) and `UpSlope`. -/
structure AnnBar extends RawBar where
  prevRsi : Option ℚ
  upSlope : Bool
deriving DecidableEq, Repr

/-- Pandas comparison `a > b` on two possibly-NaN values: any comparison
with NaN is false (line 132, the RSI column compared to the Previous_RSI
column). -/
def rsiGt (a b : Option ℚ) : Bool :=
  match a, b with
  | some x, some y => decide (y < x)
  | _, _ => false

/-- Value at index `i` of the shifted RSI column of line 131: the RSI of
the bar `lookback` positions earlier, NaN for the first `lookback` bars. -/
def shiftRsi (lookback : ℕ) (bars : List RawBar) (i : ℕ) : Option ℚ :=
  if lookback ≤ i then (bars.get? (i - lookback)).bind RawBar.rsi else none

/-- Build the annotated bar at position `i`. -/
def mkAnnBar (lookback : ℕ) (bars : List RawBar) (i : ℕ) (b : RawBar) : AnnBar :=
  { toRawBar := b
    prevRsi := shiftRsi lookback bars i
    upSlope := rsiGt b.rsi (shiftRsi lookback bars i) }

/-- Helper for `annotate`, carrying the position of the head of `l` in the
full list `bars`. -/
def annotateFrom (lookback : ℕ) (bars : List RawBar) : ℕ → List RawBar → List AnnBar
  | _, [] => []
  | i, b :: rest => mkAnnBar lookback bars i b :: annotateFrom lookback bars (i + 1) rest

/-- The indicator-annotation stage: add `Previous_RSI` and `UpSlope` to every
bar (lines 131-132). -/
def annotate (lookback : ℕ) (bars : List RawBar) : List AnnBar :=
  annotateFrom lookback bars 0 bars

/-- The run configuration constants of lines 103-125. -/
structure Params where
  open_limit_offset : ℚ
  take_profit_percentage : ℚ
  take_profit_increase : ℚ
  open_max_slippage : ℚ
  close_max_slippage : ℚ
  rsi_low : ℚ
  rsi_high : ℚ
  use_sma : Bool
  use_hma : Bool
  use_rsi_low : Bool
  use_rsi_hi : Bool
  use_rsi_slope : Bool
  slope_lookback : ℕ
  allowed_days : List ℤ
deriving DecidableEq, Repr

/-- The per-week mutable variables of lines 156-162. -/
structure WeekState where
  trade_entry_date : Option ℤ
  trade_exit_date : Option ℤ
  trade_entry_price : Option ℚ
  trade_exit_price : Option ℚ
  trade_entry_rsi : Option (Option ℚ)
  increased_take_profit : Bool
  trade_made : Bool
deriving DecidableEq, Repr

/-- The initial per-week state (lines 156-162). -/
def initState : WeekState :=
  { trade_entry_date := none
    trade_exit_date := none
    trade_entry_price := none
    trade_exit_price := none
    trade_entry_rsi := none
    increased_take_profit := false
    trade_made := false }

/-- Lines 174-177: the entry price condition at the candidate limit price. -/
def price_condition_met (p : Params) (row : AnnBar) (limit_price : ℚ) : Bool :=
  (decide (0 < p.open_limit_offset) && decide (limit_price ≤ row.high)) ||
  (decide (p.open_limit_offset ≤ 0) && decide (row.low ≤ limit_price))

/-- Pandas comparison of a price with a possibly-NaN indicator value, as in
the open-above-SMA gate of line 179; any comparison with NaN is false. -/
def nanLt (y : Option ℚ) (x : ℚ) : Bool :=
  match y with
  | some v => decide (v < x)
  | none => false

/-- Pandas at-least comparison of a possibly-NaN RSI with a threshold
(line 182); NaN compares false. -/
def nanGe (x : Option ℚ) (t : ℚ) : Bool :=
  match x with
  | some v => decide (t ≤ v)
  | none => false

/-- Pandas at-most comparison of a possibly-NaN RSI with a threshold
(line 183); NaN compares false. -/
def nanLe (x : Option ℚ) (t : ℚ) : Bool :=
  match x with
  | some v => decide (v ≤ t)
  | none => false

/-- Lines 178-184: every enabled indicator gate must hold; disabled gates
are vacuously true. -/
def indicators_condition_met (p : Params) (row : AnnBar) : Bool :=
  (!p.use_sma || nanLt row.sma row.openPrice) &&
  (!p.use_hma || nanLt row.hma row.openPrice) &&
  (!p.use_rsi_slope || row.upSlope) &&
  (!p.use_rsi_low || nanGe row.rsi p.rsi_low) &&
  (!p.use_rsi_hi || nanLe row.rsi p.rsi_high)

/-- Lines 185-187: the weekday of the bar must be in the allowed set. -/
def days_condition_met (p : Params) (row : AnnBar) : Bool :=
  decide (weekday row.date ∈ p.allowed_days)

/-- Lines 172-194: the entry check, run only while no entry has been made
this week. -/
def entryStep (p : Params) (limit_price : ℚ) (st : WeekState) (row : AnnBar) : WeekState :=
  if st.trade_entry_date = none then
    if price_condition_met p row limit_price && indicators_condition_met p row &&
        days_condition_met p row then
      { st with trade_entry_date := some row.date
                trade_entry_price := some limit_price
                trade_entry_rsi := some row.rsi
                trade_made := true }
    else st
  else st

/-- Lines 196-201: the take-profit boost check.  Returns the (possibly
replaced) take-profit price together with the updated state.  The Python
code reads `trade_entry_price` only under the `trade_entry_date is not None`
guard, where it is always set; `getD 0` stands for that never-taken read. -/
def boostStep (p : Params) (take_profit_price : ℚ) (st : WeekState) (row : AnnBar) :
    ℚ × WeekState :=
  if st.trade_entry_date.isSome = true ∧ st.increased_take_profit = false then
    if st.trade_entry_price.getD 0 * (1 + p.take_profit_percentage / 2) ≤ row.high then
      (st.trade_entry_price.getD 0 * (1 + p.take_profit_percentage + p.take_profit_increase),
       { st with increased_take_profit := true })
    else (take_profit_price, st)
  else (take_profit_price, st)

/-- Lines 203-208: the take-profit exit check. -/
def exitStep (take_profit_price : ℚ) (st : WeekState) (row : AnnBar) : WeekState :=
  if st.trade_entry_date.isSome = true ∧ take_profit_price ≤ row.high then
    { st with trade_exit_date := some row.date
              trade_exit_price := some take_profit_price }
  else st

/-- One iteration of the inner loop of lines 165-208: recompute the limit
price and take-profit price from the open of the CURRENT bar plus a fresh
slippage draw (lines 167-170), then run the entry, boost and exit checks. -/
def processBar (p : Params) (slippage : ℚ) (st : WeekState) (row : AnnBar) : WeekState :=
  let open_price := row.openPrice
  let limit_price := open_price + p.open_limit_offset + slippage
  let take_profit_price := limit_price * (1 + p.take_profit_percentage)
  let st1 := entryStep p limit_price st row
  let bs := boostStep p take_profit_price st1 row
  exitStep bs.1 bs.2 row

/-- The inner loop over the bars of the week (lines 165-208), with the `break`
of line 208 modelled by stopping as soon as an exit is recorded.  `i` is
the position of the current bar in the week, indexing the slippage stream. -/
def simWeekBars (p : Params) (slip : ℕ → ℚ) : ℕ → WeekState → List AnnBar → WeekState
  | _, st, [] => st
  | i, st, row :: rest =>
    let st1 := processBar p (slip i) st row
    if st1.trade_exit_date.isSome = true then st1
    else simWeekBars p slip (i + 1) st1 rest

/-- Lines 210-215: if still in a trade after the last bar, exit at the last
close of that bar plus the close-slippage draw `cs`.  (The Python code indexes
`weekly_data.index[-1]`; week segments are non-empty by construction.) -/
def forceClose (cs : ℚ) (weekly : List AnnBar) (st : WeekState) : WeekState :=
  if st.trade_entry_date.isSome = true ∧ st.trade_exit_date = none then
    match weekly.getLast? with
    | some lastBar =>
      { st with trade_exit_date := some lastBar.date
                trade_exit_price := some (lastBar.close + cs) }
    | none => st
  else st

/-- One row of the `trades` list (lines 221-232). -/
structure Trade where
  entry_date : ℤ
  exit_date : ℤ
  entry_price : ℚ
  exit_price : ℚ
  profit : ℚ
  days_in_trade : ℤ
  entry_day : String
  exit_day : String
  entry_rsi : Option ℚ
  tp_boost : Bool
deriving DecidableEq, Repr

/-- Lines 217-232: build the trade record of the week, if a trade was made.
All five recorded fields are set whenever `trade_made` holds (otherwise the
Python code would raise); the catch-all branch is unreachable. -/
def mkTrade (st : WeekState) : Option Trade :=
  if st.trade_made = true then
    match st.trade_entry_date, st.trade_exit_date, st.trade_entry_price,
        st.trade_exit_price, st.trade_entry_rsi with
    | some ed, some xd, some ep, some xp, some er =>
      some { entry_date := ed
             exit_date := xd
             entry_price := ep
             exit_price := xp
             profit := (xp / ep - 1) * 100
             days_in_trade := xd - ed
             entry_day := dayName (weekday ed)
             exit_day := dayName (weekday xd)
             entry_rsi := er
             tp_boost := st.increased_take_profit }
    | _, _, _, _, _ => none
  else none

/-- Simulate one weekly segment (one iteration of the loop at line 153):
run the bars, force-close if needed, and build the trade record. -/
def simWeek (p : Params) (slip : ℕ → ℚ) (cs : ℚ) (weekly : List AnnBar) : Option Trade :=
  mkTrade (forceClose cs weekly (simWeekBars p slip 0 initState weekly))

/-- The whole simulation over all weekly segments: each week gets its own
open-slippage stream and close-slippage draw; the trades of all weeks are
collected in order (the `trades.append` of line 221). -/
def runSim (p : Params) (slip : ℕ → ℕ → ℚ) (cs : ℕ → ℚ)
    (weeks : List (List AnnBar)) : List Trade :=
  (weeks.enum.map fun wi => simWeek p (slip wi.1) (cs wi.1) wi.2).reduceOption

/-- The `Profit (%)` column of the trades table. -/
def profits (ts : List Trade) : List ℚ := ts.map Trade.profit

/-- Line 251: `total_trades = len(trades_df)`. -/
def total_trades (ts : List Trade) : ℕ := ts.length

/-- Line 252: count of trades with positive profit.  The column access
`trades_df[...]` is NOT guarded on this line: when the trade list is empty,
`pd.DataFrame([])` has no columns at all and the lookup of the Profit
column raises KeyError, so this step is fallible; `none` models the raise. -/
def winning_trades (ts : List Trade) : Option ℕ :=
  if ts.isEmpty then none
  else some (ts.filter fun t => decide (0 < t.profit)).length

/-- Line 253: `losing_trades = total_trades - winning_trades`, computed
from the counts already bound (reached only when line 252 did not raise). -/
def losing_trades (winning total : ℕ) : ℕ := total - winning

/-- Line 254: win rate in percent from the already-bound counts, 0 when
there are no trades (the guard of the conditional expression is evaluated
first, so this line itself never raises). -/
def win_rate (winning total : ℕ) : ℚ :=
  if 0 < total then (winning : ℚ) / (total : ℚ) * 100 else 0

/-- Line 255: mean profit, 0 when there are no trades. -/
def average_profit (ts : List Trade) : ℚ :=
  if 0 < total_trades ts then (profits ts).sum / (total_trades ts : ℚ) else 0

/-- Line 256: total profit divided by the number of weeks, 0 when there are
no trades. -/
def profit_per_week (ts : List Trade) (total_weeks : ℕ) : ℚ :=
  if 0 < total_trades ts then (profits ts).sum / (total_weeks : ℚ) else 0

/-- Line 257: mean days-in-trade, 0 when there are no trades. -/
def average_days_in_trade (ts : List Trade) : ℚ :=
  if 0 < total_trades ts then
    (ts.map fun t => (t.days_in_trade : ℚ)).sum / (total_trades ts : ℚ)
  else 0

/-- Line 239: maximum profit, `None` for an empty trades table. -/
def max_exit_profit (ts : List Trade) : Option ℚ :=
  match profits ts with
  | [] => none
  | x :: xs => some (xs.foldl max x)

/-- Line 240: minimum profit, `None` for an empty trades table. -/
def min_exit_profit (ts : List Trade) : Option ℚ :=
  match profits ts with
  | [] => none
  | x :: xs => some (xs.foldl min x)

/-- The values bound by the overall-metrics block of lines 251-257. -/
structure OverallMetrics where
  total_trades : ℕ
  winning_trades : ℕ
  losing_trades : ℕ
  win_rate : ℚ
  average_profit : ℚ
  profit_per_week : ℚ
  average_days_in_trade : ℚ
deriving DecidableEq, Repr

/-- Lines 251-257 executed in order.  Line 251 always succeeds; line 252
raises KeyError on an empty trade list (its unguarded column access),
aborting the block before lines 253-257 run; lines 253-257 are each
individually guarded and never raise. -/
def overall_metrics (ts : List Trade) (total_weeks : ℕ) : Option OverallMetrics :=
  (winning_trades ts).map fun w =>
    { total_trades := total_trades ts
      winning_trades := w
      losing_trades := losing_trades w (total_trades ts)
      win_rate := win_rate w (total_trades ts)
      average_profit := average_profit ts
      profit_per_week := profit_per_week ts total_weeks
      average_days_in_trade := average_days_in_trade ts }

/-! ## Concrete scenarios used by the theorems below -/

/-- A zero slippage stream (every `random.uniform` draw comes out 0). -/
def zq : ℕ → ℚ := fun _ => 0

/-- The configuration for the entry-anchoring scenario: zero open-limit
offset, 7% take-profit, 1% boost, all indicator gates off, all weekdays
allowed. -/
def pC1 : Params :=
  { open_limit_offset := 0
    take_profit_percentage := 7/100
    take_profit_increase := 1/100
    open_max_slippage := 1/100
    close_max_slippage := 1/100
    rsi_low := 51
    rsi_high := 73
    use_sma := false
    use_hma := false
    use_rsi_low := false
    use_rsi_hi := false
    use_rsi_slope := false
    slope_lookback := 1
    allowed_days := [0, 1, 2, 3, 4] }

/-- Monday 2024-01-01 (day 19723): open 10, high 10.2, low 9.9 — triggers
entry at limit 10 with zero slippage, no boost (10.2 < 10.35), no exit
(10.2 < 10.7). -/
def b1C1 : AnnBar :=
  { date := 19723, openPrice := 10, high := 51/5, low := 99/10, close := 10,
    sma := none, hma := none, rsi := none, prevRsi := none, upSlope := false }

/-- Tuesday: open 9, high 10 — the boost threshold 10.35 is not reached,
so the claim predicts the target is still 10.70 and no exit occurs. -/
def b2C1 : AnnBar :=
  { date := 19724, openPrice := 9, high := 10, low := 44/5, close := 19/2,
    sma := none, hma := none, rsi := none, prevRsi := none, upSlope := false }

/-- Same configuration with the positive open-limit offset 0.01 used by the
Scenario B of the spec. -/
def pC2 : Params :=
  { pC1 with open_limit_offset := 1/100 }

/-- Scenario B Monday: open 9.99 so the limit price is exactly 10.00;
high 10.1 triggers entry, no boost, no exit. -/
def monB : AnnBar :=
  { date := 19723, openPrice := 999/100, high := 101/10, low := 49/5, close := 10,
    sma := none, hma := none, rsi := none, prevRsi := none, upSlope := false }

/-- Scenario B Tuesday: high 10.40 ≥ 10.35 fires the boost, setting the
target to 10.80; 10.40 < 10.80 so no exit. -/
def tueB : AnnBar :=
  { date := 19724, openPrice := 51/5, high := 52/5, low := 10, close := 103/10,
    sma := none, hma := none, rsi := none, prevRsi := none, upSlope := false }

/-- Scenario B Wednesday: high 10.85 ≥ 10.80, so the claim predicts an exit
at 10.80 with profit 8%. -/
def wedB : AnnBar :=
  { date := 19725, openPrice := 21/2, high := 217/20, low := 103/10, close := 53/5,
    sma := none, hma := none, rsi := none, prevRsi := none, upSlope := false }

/-- The trade the code actually produces on `[b1C1, b2C1]`. -/
def tC1 : Trade :=
  { entry_date := 19723, exit_date := 19724, entry_price := 10,
    exit_price := 963/100, profit := -37/10, days_in_trade := 1,
    entry_day := "Monday", exit_day := "Tuesday", entry_rsi := none,
    tp_boost := false }

/-- The trade the code actually produces on Scenario B. -/
def tC2 : Trade :=
  { entry_date := 19723, exit_date := 19725, entry_price := 10,
    exit_price := 53/5, profit := 6, days_in_trade := 2,
    entry_day := "Monday", exit_day := "Wednesday", entry_rsi := none,
    tp_boost := true }

/-- The well-formedness invariant of the per-week state: `trade_made`
tracks exactly whether an entry was recorded, the entry price and RSI are
recorded together with the entry date, and an exit implies a price and a
prior entry. -/
def StInv (st : WeekState) : Prop :=
  st.trade_made = st.trade_entry_date.isSome ∧
  (st.trade_entry_date.isSome = true →
    st.trade_entry_price.isSome = true ∧ st.trade_entry_rsi.isSome = true) ∧
  (st.trade_exit_date.isSome = true →
    st.trade_exit_price.isSome = true ∧ st.trade_entry_date.isSome = true)

/-- A one-bar week used by several witnesses: entry at limit 10 (zero
offset, zero slippage), high 10.2 below both the boost trigger 10.35 and
the target 10.70, so the week ends with a forced close. -/
def bW : AnnBar :=
  { date := 19723, openPrice := 10, high := 51/5, low := 99/10, close := 201/20,
    sma := none, hma := none, rsi := none, prevRsi := none, upSlope := false }

/-- A state in which an entry has already been recorded. -/
def stE : WeekState :=
  { trade_entry_date := some 19723
    trade_exit_date := none
    trade_entry_price := some 10
    trade_exit_price := none
    trade_entry_rsi := some none
    increased_take_profit := false
    trade_made := true }

/-- A bar with a defined RSI of 50, used as the earlier bar of the C8
witness. -/
def raw50a : RawBar :=
  { date := 19723, openPrice := 10, high := 51/5, low := 99/10, close := 10,
    sma := none, hma := none, rsi := some 50 }

/-- A later bar whose RSI is also 50: the RSI is flat across the lookback. -/
def raw50b : RawBar :=
  { date := 19724, openPrice := 10, high := 51/5, low := 99/10, close := 10,
    sma := none, hma := none, rsi := some 50 }

/-- The configuration with only the oscillator-rising gate enabled. -/
def p8 : Params := { pC1 with use_rsi_slope := true }

/-- The annotated second bar: previous RSI 50 equals current RSI 50, so
`UpSlope` is false. -/
def b8 : AnnBar :=
  { date := 19724, openPrice := 10, high := 51/5, low := 99/10, close := 10,
    sma := none, hma := none, rsi := some 50, prevRsi := some 50, upSlope := false }

/-! ## Theorems for the claims -/

/-- C1: the claim says that while in a trade with no boost fired, the exit
take-profit target of the exit check is the entry-anchored target
`entry_price × 1.07`, so an
in-week take-profit exit can only happen at that target (or the boosted
one).  The code instead recomputes the target from the open price of the
CURRENT bar (line 170): on this two-bar week the trade enters Monday at
10.00 and on Tuesday (open 9, high 10, boost never fired) the exit check
fires against the Tuesday target 9 × 1.07 = 9.63, recording a take-profit
exit at
9.63 — below the entry price and unequal to the entry-anchored 10.70. -/
theorem c1_take_profit_not_entry_anchored :
    ∃ t : Trade, simWeek pC1 zq 0 [b1C1, b2C1] = some t ∧
      t.tp_boost = false ∧
      t.entry_price = 10 ∧
      t.exit_price = 963/100 ∧
      t.exit_price ≠ t.entry_price * (1 + pC1.take_profit_percentage) ∧
      t.exit_price < t.entry_price := by
  refine ⟨tC1, ?_, ?_, ?_, ?_, ?_, ?_⟩ <;> decide

/-- C2: the claim says that once the boost fires, the target stays at
`entry × 1.08` on every later bar, and in Scenario B the trade exits
Wednesday at 10.80 with profit 8%.  In the code the boosted target survives
only the boost bar itself: on Wednesday line 170 recomputes the target from
the Wednesday open (10.50 → target 11.2457), the boost branch is skipped
(`increased_take_profit` is already true), the Wednesday high 10.85 no
longer reaches the target, and the trade is force-closed at the Wednesday
close 10.60 with profit 6%, not 8%. -/
theorem c2_boost_target_not_persistent :
    ∃ t : Trade, simWeek pC2 zq 0 [monB, tueB, wedB] = some t ∧
      t.tp_boost = true ∧
      t.entry_price = 10 ∧
      t.exit_price = 53/5 ∧
      t.exit_price ≠ t.entry_price * (1 + pC2.take_profit_percentage + pC2.take_profit_increase) ∧
      t.profit = 6 ∧ t.profit ≠ 8 := by
  refine ⟨tC2, ?_, ?_, ?_, ?_, ?_, ?_, ?_⟩ <;> decide

/-- C3: the claim says that with zero trades the aggregation computes
win_rate = average_profit = profit_per_week = average_days_in_trade = 0 and
the whole reporting path completes without raising.  In the code only the
extrema of lines 239-245 are guarded by `trades_df.empty` (they are None),
while line 252 accesses the Profit column of the empty, column-less
DataFrame unguarded: it raises KeyError and aborts the block before any of
the four aggregates of lines 254-257 is computed (and, had it survived,
line 269 would format the None extremum with a fixed-precision numeric
format, a TypeError).  Evaluating the embedded code on the empty trade
list: the extrema are `none`, line 252 fails, and the overall-metrics
block produces no values at all. -/
theorem c3_zero_trades_keyerror :
    max_exit_profit [] = none ∧ min_exit_profit [] = none ∧
    winning_trades [] = none ∧
    (∀ w : ℕ, overall_metrics [] w = none) :=
  ⟨rfl, rfl, rfl, fun _ => rfl⟩

/-! ## Structural lemmas about the state machine -/

/-- Unfolding `processBar` into its three sequential checks. -/
theorem processBar_eq (p : Params) (s : ℚ) (st : WeekState) (row : AnnBar) :
    processBar p s st row =
      exitStep
        (boostStep p ((row.openPrice + p.open_limit_offset + s) * (1 + p.take_profit_percentage))
          (entryStep p (row.openPrice + p.open_limit_offset + s) st row) row).1
        (boostStep p ((row.openPrice + p.open_limit_offset + s) * (1 + p.take_profit_percentage))
          (entryStep p (row.openPrice + p.open_limit_offset + s) st row) row).2
        row := rfl

/-- Function `entryStep` is the identity once an entry has been recorded. -/
theorem entryStep_of_entered {st : WeekState} (p : Params) (l : ℚ) (row : AnnBar)
    (h : st.trade_entry_date ≠ none) : entryStep p l st row = st := by
  unfold entryStep
  simp [h]

/-- Function `entryStep` either leaves the state unchanged or records the
entry. -/
theorem entryStep_cases (p : Params) (l : ℚ) (st : WeekState) (row : AnnBar) :
    entryStep p l st row = st ∨
      (st.trade_entry_date = none ∧
        entryStep p l st row =
          { st with trade_entry_date := some row.date
                    trade_entry_price := some l
                    trade_entry_rsi := some row.rsi
                    trade_made := true }) := by
  unfold entryStep
  split
  · split
    · next h _ => exact Or.inr ⟨h, rfl⟩
    · exact Or.inl rfl
  · exact Or.inl rfl

/-- The state returned by `boostStep` differs from its input at most in the
`increased_take_profit` flag. -/
theorem boostStep_snd_preserves (p : Params) (tp : ℚ) (st : WeekState) (row : AnnBar) :
    (boostStep p tp st row).2.trade_entry_date = st.trade_entry_date ∧
    (boostStep p tp st row).2.trade_entry_price = st.trade_entry_price ∧
    (boostStep p tp st row).2.trade_entry_rsi = st.trade_entry_rsi ∧
    (boostStep p tp st row).2.trade_exit_date = st.trade_exit_date ∧
    (boostStep p tp st row).2.trade_exit_price = st.trade_exit_price ∧
    (boostStep p tp st row).2.trade_made = st.trade_made := by
  unfold boostStep
  split
  · split <;> exact ⟨rfl, rfl, rfl, rfl, rfl, rfl⟩
  · exact ⟨rfl, rfl, rfl, rfl, rfl, rfl⟩

/-- Function `boostStep` either leaves the state unchanged or only sets the
`increased_take_profit` flag. -/
theorem boostStep_snd_cases (p : Params) (tp : ℚ) (st : WeekState) (row : AnnBar) :
    (boostStep p tp st row).2 = st ∨
      (boostStep p tp st row).2 = { st with increased_take_profit := true } := by
  unfold boostStep
  split
  · split
    · exact Or.inr rfl
    · exact Or.inl rfl
  · exact Or.inl rfl

/-- Function `exitStep` changes at most the exit date and price. -/
theorem exitStep_preserves (tp : ℚ) (st : WeekState) (row : AnnBar) :
    (exitStep tp st row).trade_entry_date = st.trade_entry_date ∧
    (exitStep tp st row).trade_entry_price = st.trade_entry_price ∧
    (exitStep tp st row).trade_entry_rsi = st.trade_entry_rsi ∧
    (exitStep tp st row).increased_take_profit = st.increased_take_profit ∧
    (exitStep tp st row).trade_made = st.trade_made := by
  unfold exitStep
  split <;> exact ⟨rfl, rfl, rfl, rfl, rfl⟩

/-- Function `exitStep` either leaves the state unchanged or only records
the exit date and price (possible only when an entry exists). -/
theorem exitStep_cases (tp : ℚ) (st : WeekState) (row : AnnBar) :
    exitStep tp st row = st ∨
      (st.trade_entry_date.isSome = true ∧
        exitStep tp st row =
          { st with trade_exit_date := some row.date
                    trade_exit_price := some tp }) := by
  unfold exitStep
  split
  · next h => exact Or.inr ⟨h.1, rfl⟩
  · exact Or.inl rfl

/-- Once an entry is recorded, `processBar` never touches the entry fields
or the `trade_made` flag (the entry check runs only when
`trade_entry_date is None`, line 172). -/
theorem processBar_entry_frozen (p : Params) (s : ℚ) (st : WeekState) (row : AnnBar)
    (d : ℤ) (h : st.trade_entry_date = some d) :
    (processBar p s st row).trade_entry_date = some d ∧
    (processBar p s st row).trade_entry_price = st.trade_entry_price ∧
    (processBar p s st row).trade_entry_rsi = st.trade_entry_rsi ∧
    (processBar p s st row).trade_made = st.trade_made := by
  rw [processBar_eq, entryStep_of_entered _ _ _ (by simp [h])]
  obtain ⟨e1, e2, e3, _, e5⟩ :=
    exitStep_preserves
      (boostStep p ((row.openPrice + p.open_limit_offset + s) * (1 + p.take_profit_percentage)) st row).1
      (boostStep p ((row.openPrice + p.open_limit_offset + s) * (1 + p.take_profit_percentage)) st row).2
      row
  obtain ⟨b1, b2, b3, _, _, b6⟩ :=
    boostStep_snd_preserves p
      ((row.openPrice + p.open_limit_offset + s) * (1 + p.take_profit_percentage)) st row
  rw [e1, e2, e3, e5, b1, b2, b3, b6, h]
  exact ⟨rfl, rfl, rfl, rfl⟩

/-- Unfolding the bar loop on an empty list. -/
theorem simWeekBars_nil (p : Params) (slip : ℕ → ℚ) (i : ℕ) (st : WeekState) :
    simWeekBars p slip i st [] = st := rfl

/-- Unfolding the bar loop on a non-empty list: process the first bar, stop
if it recorded an exit (the `break` of line 208), otherwise continue. -/
theorem simWeekBars_cons (p : Params) (slip : ℕ → ℚ) (i : ℕ) (st : WeekState)
    (row : AnnBar) (rest : List AnnBar) :
    simWeekBars p slip i st (row :: rest) =
      if (processBar p (slip i) st row).trade_exit_date.isSome = true
      then processBar p (slip i) st row
      else simWeekBars p slip (i + 1) (processBar p (slip i) st row) rest := rfl

/-- The inner bar loop preserves the recorded entry once it exists. -/
theorem simWeekBars_entry_frozen (p : Params) (slip : ℕ → ℚ) :
    ∀ (bars : List AnnBar) (i : ℕ) (st : WeekState) (d : ℤ),
      st.trade_entry_date = some d →
      (simWeekBars p slip i st bars).trade_entry_date = some d ∧
      (simWeekBars p slip i st bars).trade_entry_price = st.trade_entry_price ∧
      (simWeekBars p slip i st bars).trade_entry_rsi = st.trade_entry_rsi ∧
      (simWeekBars p slip i st bars).trade_made = st.trade_made
  | [], _, st, d, h => ⟨h, rfl, rfl, rfl⟩
  | row :: rest, i, st, d, h => by
    obtain ⟨h1, h2, h3, h4⟩ := processBar_entry_frozen p (slip i) st row d h
    rw [simWeekBars_cons]
    split
    · exact ⟨h1, h2, h3, h4⟩
    · obtain ⟨g1, g2, g3, g4⟩ :=
        simWeekBars_entry_frozen p slip rest (i + 1) (processBar p (slip i) st row) d h1
      exact ⟨g1, g2.trans h2, g3.trans h3, g4.trans h4⟩



/-- The initial state is well-formed. -/
theorem initState_inv : StInv initState := by
  refine ⟨rfl, ?_, ?_⟩ <;> intro h <;> simp [initState] at h

/-- Function `processBar` preserves the state invariant. -/
theorem processBar_inv (p : Params) (s : ℚ) (st : WeekState) (row : AnnBar)
    (h : StInv st) : StInv (processBar p s st row) := by
  rw [processBar_eq]
  obtain ⟨m, e, x⟩ := h
  rcases entryStep_cases p (row.openPrice + p.open_limit_offset + s) st row with h1 | ⟨hn, h1⟩ <;>
    rw [h1] <;> clear h1
  all_goals {
    rcases boostStep_snd_cases p
        ((row.openPrice + p.open_limit_offset + s) * (1 + p.take_profit_percentage)) _ row
      with h2 | h2 <;> rw [h2] <;> clear h2
    all_goals
      rcases exitStep_cases
          (boostStep p ((row.openPrice + p.open_limit_offset + s) * (1 + p.take_profit_percentage)) _ row).1
          _ row
        with h3 | ⟨_, h3⟩ <;> rw [h3] <;> clear h3
    all_goals refine ⟨?_, ?_, ?_⟩ <;> simp_all
  }

/-- The bar loop preserves the state invariant. -/
theorem simWeekBars_inv (p : Params) (slip : ℕ → ℚ) :
    ∀ (bars : List AnnBar) (i : ℕ) (st : WeekState),
      StInv st → StInv (simWeekBars p slip i st bars)
  | [], _, _, h => h
  | row :: rest, i, st, h => by
    rw [simWeekBars_cons]
    split
    · exact processBar_inv p (slip i) st row h
    · exact simWeekBars_inv p slip rest (i + 1) _ (processBar_inv p (slip i) st row h)

/-- Function `forceClose` on a state that entered but never exited, for a week whose
last bar is known: it records exactly the date of that bar and its
close-plus-slippage. -/
theorem forceClose_spec (cs : ℚ) (weekly : List AnnBar) (st : WeekState)
    (lastBar : AnnBar) (hlast : weekly.getLast? = some lastBar)
    (hentry : st.trade_entry_date.isSome = true) (hnoexit : st.trade_exit_date = none) :
    forceClose cs weekly st =
      { st with trade_exit_date := some lastBar.date
                trade_exit_price := some (lastBar.close + cs) } := by
  unfold forceClose
  rw [if_pos ⟨hentry, hnoexit⟩, hlast]

/-- Function `mkTrade` on a fully-populated state builds exactly the record of
lines 221-232. -/
theorem mkTrade_spec (st : WeekState) (ed xd : ℤ) (ep xp : ℚ) (er : Option ℚ)
    (hm : st.trade_made = true)
    (h1 : st.trade_entry_date = some ed) (h2 : st.trade_exit_date = some xd)
    (h3 : st.trade_entry_price = some ep) (h4 : st.trade_exit_price = some xp)
    (h5 : st.trade_entry_rsi = some er) :
    mkTrade st = some
      { entry_date := ed, exit_date := xd, entry_price := ep, exit_price := xp,
        profit := (xp / ep - 1) * 100, days_in_trade := xd - ed,
        entry_day := dayName (weekday ed), exit_day := dayName (weekday xd),
        entry_rsi := er, tp_boost := st.increased_take_profit } := by
  unfold mkTrade
  rw [if_pos hm, h1, h2, h3, h4, h5]

/-- Whatever `mkTrade` returns satisfies the profit and days formulas. -/
theorem mkTrade_profit (st : WeekState) (t : Trade) (h : mkTrade st = some t) :
    t.profit = (t.exit_price / t.entry_price - 1) * 100 ∧
    t.days_in_trade = t.exit_date - t.entry_date := by
  unfold mkTrade at h
  split at h
  · split at h
    · injection h with h
      subst h
      exact ⟨rfl, rfl⟩
    · exact absurd h (by simp)
  · exact absurd h (by simp)



/-- C4: each weekly segment contributes at most one trade to the trade
list, and once a bar has triggered entry the Seeking-Entry check is never
re-evaluated: the recorded entry date, entry price and entry RSI are left
untouched by all later bars of the week. -/
theorem c4_at_most_one_trade_and_entry_frozen :
    (∀ (p : Params) (slip : ℕ → ℕ → ℚ) (cs : ℕ → ℚ) (weeks : List (List AnnBar)),
        (runSim p slip cs weeks).length ≤ weeks.length) ∧
    (∀ (p : Params) (slip : ℕ → ℚ) (i : ℕ) (st : WeekState) (bars : List AnnBar) (d : ℤ),
        st.trade_entry_date = some d →
        (simWeekBars p slip i st bars).trade_entry_date = some d ∧
        (simWeekBars p slip i st bars).trade_entry_price = st.trade_entry_price ∧
        (simWeekBars p slip i st bars).trade_entry_rsi = st.trade_entry_rsi) := by
  refine ⟨fun p slip cs weeks => ?_, fun p slip i st bars d h => ?_⟩
  · unfold runSim
    refine le_trans (List.reduceOption_length_le _) ?_
    simp
  · obtain ⟨h1, h2, h3, _⟩ := simWeekBars_entry_frozen p slip bars i st d h
    exact ⟨h1, h2, h3⟩

/-- Witness for C4 at a concrete entered state and a concrete later bar. -/
theorem c4_witness :
    stE.trade_entry_date = some 19723 ∧
    ((simWeekBars pC1 zq 0 stE [b2C1]).trade_entry_date = some 19723 ∧
     (simWeekBars pC1 zq 0 stE [b2C1]).trade_entry_price = stE.trade_entry_price ∧
     (simWeekBars pC1 zq 0 stE [b2C1]).trade_entry_rsi = stE.trade_entry_rsi) :=
  ⟨rfl, c4_at_most_one_trade_and_entry_frozen.2 pC1 zq 0 stE [b2C1] 19723 rfl⟩

/-- C5: if a trade is entered and the take-profit exit is not taken on any
bar of the segment, the trade is force-closed at end of week: the exit date
is exactly the last bar date of the segment and the exit price is the
close of that bar plus the close-slippage perturbation, which lies within
[close − close-slippage-bound, close + close-slippage-bound]. -/
theorem c5_forced_end_of_week_exit (p : Params) (slip : ℕ → ℚ) (cs : ℚ)
    (weekly : List AnnBar) (lastBar : AnnBar)
    (hlast : weekly.getLast? = some lastBar)
    (hentry : (simWeekBars p slip 0 initState weekly).trade_entry_date.isSome = true)
    (hnoexit : (simWeekBars p slip 0 initState weekly).trade_exit_date = none)
    (hcs : |cs| ≤ p.close_max_slippage) :
    ∃ t : Trade, simWeek p slip cs weekly = some t ∧
      t.exit_date = lastBar.date ∧ t.exit_price = lastBar.close + cs ∧
      lastBar.close - p.close_max_slippage ≤ t.exit_price ∧
      t.exit_price ≤ lastBar.close + p.close_max_slippage := by
  obtain ⟨hm, he, hx⟩ := simWeekBars_inv p slip weekly 0 initState initState_inv
  obtain ⟨hep, her⟩ := he hentry
  obtain ⟨ed, hed⟩ := Option.isSome_iff_exists.mp hentry
  obtain ⟨ep, hepv⟩ := Option.isSome_iff_exists.mp hep
  obtain ⟨er, herv⟩ := Option.isSome_iff_exists.mp her
  have hforce := forceClose_spec cs weekly _ lastBar hlast hentry hnoexit
  have habs := abs_le.mp hcs
  refine ⟨{ entry_date := ed, exit_date := lastBar.date, entry_price := ep,
            exit_price := lastBar.close + cs,
            profit := ((lastBar.close + cs) / ep - 1) * 100,
            days_in_trade := lastBar.date - ed,
            entry_day := dayName (weekday ed),
            exit_day := dayName (weekday lastBar.date), entry_rsi := er,
            tp_boost := (simWeekBars p slip 0 initState
              weekly).increased_take_profit },
    ?_, rfl, rfl, ?_, ?_⟩
  · show mkTrade (forceClose cs weekly (simWeekBars p slip 0 initState weekly)) = _
    rw [hforce]
    exact mkTrade_spec _ ed lastBar.date ep (lastBar.close + cs) er
      (by rw [hm]; exact hentry) hed rfl hepv rfl herv
  · show lastBar.close - p.close_max_slippage ≤ lastBar.close + cs
    linarith [habs.1]
  · show lastBar.close + cs ≤ lastBar.close + p.close_max_slippage
    linarith [habs.2]

/-- Witness for C5: a one-bar week that enters and never hits the target,
with close slippage 1/200 within the bound 1/100. -/
theorem c5_witness :
    (([bW] : List AnnBar).getLast? = some bW ∧
     (simWeekBars pC1 zq 0 initState [bW]).trade_entry_date.isSome = true ∧
     (simWeekBars pC1 zq 0 initState [bW]).trade_exit_date = none ∧
     |(1 : ℚ)/200| ≤ pC1.close_max_slippage) ∧
    (∃ t : Trade, simWeek pC1 zq (1/200) [bW] = some t ∧
      t.exit_date = bW.date ∧ t.exit_price = bW.close + 1/200 ∧
      bW.close - pC1.close_max_slippage ≤ t.exit_price ∧
      t.exit_price ≤ bW.close + pC1.close_max_slippage) :=
  ⟨⟨by decide, by decide, by decide, by decide⟩,
    c5_forced_end_of_week_exit pC1 zq (1/200) [bW] bW (by decide) (by decide)
      (by decide) (by decide)⟩

/-- The boolean entry condition of line 190 unfolded into the formula of
the spec: the price condition split on the sign of the offset, every enabled
indicator gate, and the allowed-weekday check. -/
theorem entry_cond_iff (p : Params) (row : AnnBar) (l : ℚ) :
    (price_condition_met p row l && indicators_condition_met p row &&
      days_condition_met p row) = true ↔
    (((0 < p.open_limit_offset ∧ l ≤ row.high) ∨
      (p.open_limit_offset ≤ 0 ∧ row.low ≤ l)) ∧
     indicators_condition_met p row = true ∧
     weekday row.date ∈ p.allowed_days) := by
  simp [price_condition_met, days_condition_met, and_assoc]

/-- C6: while Seeking-Entry, the candidate limit price is
`open + offset + slippage`, and the bar triggers entry — recording exactly
that limit price as the entry price — precisely when the offset-dependent
price condition, all enabled indicator gates and the weekday condition hold
simultaneously. -/
theorem c6_entry_condition (p : Params) (s : ℚ) (st : WeekState) (row : AnnBar)
    (hseek : st.trade_entry_date = none) :
    ((processBar p s st row).trade_entry_date = some row.date ∧
     (processBar p s st row).trade_entry_price =
       some (row.openPrice + p.open_limit_offset + s)) ↔
    (((0 < p.open_limit_offset ∧ row.openPrice + p.open_limit_offset + s ≤ row.high) ∨
      (p.open_limit_offset ≤ 0 ∧ row.low ≤ row.openPrice + p.open_limit_offset + s)) ∧
     indicators_condition_met p row = true ∧
     weekday row.date ∈ p.allowed_days) := by
  rw [processBar_eq]
  obtain ⟨e1, e2, -, -, -⟩ :=
    exitStep_preserves
      (boostStep p ((row.openPrice + p.open_limit_offset + s) * (1 + p.take_profit_percentage))
        (entryStep p (row.openPrice + p.open_limit_offset + s) st row) row).1
      (boostStep p ((row.openPrice + p.open_limit_offset + s) * (1 + p.take_profit_percentage))
        (entryStep p (row.openPrice + p.open_limit_offset + s) st row) row).2
      row
  obtain ⟨b1, b2, -, -, -, -⟩ :=
    boostStep_snd_preserves p
      ((row.openPrice + p.open_limit_offset + s) * (1 + p.take_profit_percentage))
      (entryStep p (row.openPrice + p.open_limit_offset + s) st row) row
  rw [e1, e2, b1, b2]
  rw [← entry_cond_iff p row (row.openPrice + p.open_limit_offset + s)]
  rcases Bool.eq_false_or_eq_true
      (price_condition_met p row (row.openPrice + p.open_limit_offset + s) &&
        indicators_condition_met p row && days_condition_met p row) with hc | hc
  · have hst : entryStep p (row.openPrice + p.open_limit_offset + s) st row =
        { st with trade_entry_date := some row.date
                  trade_entry_price := some (row.openPrice + p.open_limit_offset + s)
                  trade_entry_rsi := some row.rsi
                  trade_made := true } := by
      unfold entryStep
      rw [if_pos hseek, if_pos hc]
    rw [hst, hc]
    simp
  · have hst : entryStep p (row.openPrice + p.open_limit_offset + s) st row = st := by
      unfold entryStep
      rw [if_pos hseek, if_neg (by simp [hc])]
    rw [hst, hseek, hc]
    simp

/-- Witness for C6 at a concrete seeking state and entering bar. -/
theorem c6_witness :
    initState.trade_entry_date = none ∧
    (((processBar pC1 0 initState bW).trade_entry_date = some bW.date ∧
      (processBar pC1 0 initState bW).trade_entry_price =
        some (bW.openPrice + pC1.open_limit_offset + 0)) ↔
     (((0 < pC1.open_limit_offset ∧ bW.openPrice + pC1.open_limit_offset + 0 ≤ bW.high) ∨
       (pC1.open_limit_offset ≤ 0 ∧ bW.low ≤ bW.openPrice + pC1.open_limit_offset + 0)) ∧
      indicators_condition_met pC1 bW = true ∧
      weekday bW.date ∈ pC1.allowed_days)) :=
  ⟨rfl, c6_entry_condition pC1 0 initState bW rfl⟩

/-- C7: the profit percentage of every trade record is exactly
`(exit_price / entry_price − 1) × 100` and its days-in-trade is exactly the
calendar-day difference of exit and entry dates. -/
theorem c7_profit_and_days (p : Params) (slip : ℕ → ℚ) (cs : ℚ)
    (weekly : List AnnBar) (t : Trade) (h : simWeek p slip cs weekly = some t) :
    t.profit = (t.exit_price / t.entry_price - 1) * 100 ∧
    t.days_in_trade = t.exit_date - t.entry_date :=
  mkTrade_profit _ t h

/-- Witness for C7 at the concrete one-bar forced-close week. -/
theorem c7_witness :
    (∃ t : Trade, simWeek pC1 zq 0 [bW] = some t) ∧
    (∀ t : Trade, simWeek pC1 zq 0 [bW] = some t →
      t.profit = (t.exit_price / t.entry_price - 1) * 100 ∧
      t.days_in_trade = t.exit_date - t.entry_date) :=
  ⟨⟨{ entry_date := 19723, exit_date := 19723, entry_price := 10,
      exit_price := 201/20, profit := 1/2, days_in_trade := 0,
      entry_day := "Monday", exit_day := "Monday", entry_rsi := none,
      tp_boost := false }, by decide⟩,
   fun t h => c7_profit_and_days pC1 zq 0 [bW] t h⟩

/-- Indexing `annotateFrom`: the bar at position `n` of the suffix starting
at position `i` is annotated with absolute position `i + n`. -/
theorem annotateFrom_get? (lookback : ℕ) (bars : List RawBar) :
    ∀ (l : List RawBar) (i n : ℕ),
      (annotateFrom lookback bars i l).get? n =
        (l.get? n).map (mkAnnBar lookback bars (i + n))
  | [], _, _ => by simp [annotateFrom]
  | _ :: _, _, 0 => by simp [annotateFrom]
  | _ :: rest, i, n + 1 => by
    simp only [annotateFrom, List.get?]
    rw [annotateFrom_get? lookback bars rest (i + 1) n]
    have h : i + 1 + n = i + (n + 1) := by omega
    rw [h]

/-- Indexing the annotation stage: position `i` carries the shift of `i`. -/
theorem annotate_get? (lookback : ℕ) (bars : List RawBar) (i : ℕ) :
    (annotate lookback bars).get? i = (bars.get? i).map (mkAnnBar lookback bars i) := by
  unfold annotate
  rw [annotateFrom_get?]
  simp

/-- C8: with the oscillator-rising gate enabled, a bar whose RSI equals the
RSI `slope_lookback` bars earlier has `UpSlope = false` (the comparison of
line 132 is strict), so the indicator condition fails and the bar cannot
trigger entry, whatever the price and weekday conditions say. -/
theorem c8_flat_rsi_blocks_entry (p : Params) (hs : p.use_rsi_slope = true)
    (bars : List RawBar) (i : ℕ) (b : AnnBar) (braw : RawBar) (r : ℚ)
    (hb : (annotate p.slope_lookback bars).get? i = some b)
    (hle : p.slope_lookback ≤ i)
    (hraw : bars.get? (i - p.slope_lookback) = some braw)
    (hbr : braw.rsi = some r) (hr : b.rsi = some r)
    (s : ℚ) (st : WeekState) (hseek : st.trade_entry_date = none) :
    indicators_condition_met p b = false ∧
    (processBar p s st b).trade_entry_date = none := by
  rw [annotate_get?] at hb
  obtain ⟨b0, hb0, hbeq⟩ := Option.map_eq_some'.mp hb
  have hshift : shiftRsi p.slope_lookback bars i = some r := by
    unfold shiftRsi
    rw [if_pos hle, hraw]
    simpa using hbr
  have hbrsi : b0.rsi = some r := by
    rw [← hbeq] at hr
    exact hr
  have hup : b.upSlope = false := by
    rw [← hbeq]
    show rsiGt b0.rsi (shiftRsi p.slope_lookback bars i) = false
    rw [hbrsi, hshift]
    simp [rsiGt]
  have hind : indicators_condition_met p b = false := by
    unfold indicators_condition_met
    rw [hs, hup]
    simp
  refine ⟨hind, ?_⟩
  rw [processBar_eq]
  obtain ⟨e1, -, -, -, -⟩ :=
    exitStep_preserves
      (boostStep p ((b.openPrice + p.open_limit_offset + s) * (1 + p.take_profit_percentage))
        (entryStep p (b.openPrice + p.open_limit_offset + s) st b) b).1
      (boostStep p ((b.openPrice + p.open_limit_offset + s) * (1 + p.take_profit_percentage))
        (entryStep p (b.openPrice + p.open_limit_offset + s) st b) b).2
      b
  obtain ⟨b1, -, -, -, -, -⟩ :=
    boostStep_snd_preserves p
      ((b.openPrice + p.open_limit_offset + s) * (1 + p.take_profit_percentage))
      (entryStep p (b.openPrice + p.open_limit_offset + s) st b) b
  rw [e1, b1]
  have hst : entryStep p (b.openPrice + p.open_limit_offset + s) st b = st := by
    unfold entryStep
    rw [if_pos hseek, if_neg (by simp [hind])]
  rw [hst, hseek]



/-- Witness for C8: flat RSI at 50 over a lookback of 1 blocks entry even
though the price and weekday conditions hold on that bar. -/
theorem c8_witness :
    (p8.use_rsi_slope = true ∧
     (annotate p8.slope_lookback [raw50a, raw50b]).get? 1 = some b8 ∧
     p8.slope_lookback ≤ 1 ∧
     ([raw50a, raw50b] : List RawBar).get? (1 - p8.slope_lookback) = some raw50a ∧
     raw50a.rsi = some 50 ∧ b8.rsi = some 50 ∧
     initState.trade_entry_date = none ∧
     price_condition_met p8 b8 (b8.openPrice + p8.open_limit_offset + 0) = true ∧
     days_condition_met p8 b8 = true) ∧
    (indicators_condition_met p8 b8 = false ∧
     (processBar p8 0 initState b8).trade_entry_date = none) :=
  ⟨⟨rfl, by decide, by decide, by decide, rfl, rfl, rfl, by decide, by decide⟩,
   c8_flat_rsi_blocks_entry p8 rfl [raw50a, raw50b] 1 b8 raw50a 50 (by decide)
     (by decide) (by decide) rfl rfl 0 initState rfl⟩

/-- C10: when every moving-average and oscillator gate is disabled, the
indicator condition holds for every bar, including warm-up bars with
undefined indicator values; consequently a trade can be produced whose
recorded entry RSI is the undefined (NaN) RSI of the bar, taken verbatim. -/
theorem c10_indicator_gates_vacuous (p : Params)
    (h1 : p.use_sma = false) (h2 : p.use_hma = false) (h3 : p.use_rsi_slope = false)
    (h4 : p.use_rsi_low = false) (h5 : p.use_rsi_hi = false) :
    (∀ b : AnnBar, indicators_condition_met p b = true) ∧
    (∃ t : Trade, simWeek pC1 zq 0 [bW] = some t ∧ t.entry_rsi = none ∧ bW.rsi = none) := by
  constructor
  · intro b
    unfold indicators_condition_met
    rw [h1, h2, h3, h4, h5]
    rfl
  · exact ⟨{ entry_date := 19723, exit_date := 19723, entry_price := 10,
             exit_price := 201/20, profit := 1/2, days_in_trade := 0,
             entry_day := "Monday", exit_day := "Monday", entry_rsi := none,
             tp_boost := false }, by decide, rfl, rfl⟩

/-- Witness for C10 at the concrete all-gates-off configuration. -/
theorem c10_witness :
    (pC1.use_sma = false ∧ pC1.use_hma = false ∧ pC1.use_rsi_slope = false ∧
     pC1.use_rsi_low = false ∧ pC1.use_rsi_hi = false) ∧
    ((∀ b : AnnBar, indicators_condition_met pC1 b = true) ∧
     (∃ t : Trade, simWeek pC1 zq 0 [bW] = some t ∧ t.entry_rsi = none ∧ bW.rsi = none)) :=
  ⟨⟨rfl, rfl, rfl, rfl, rfl⟩, c10_indicator_gates_vacuous pC1 rfl rfl rfl rfl rfl⟩
